import Mathlib

/-
Shallow embedding of the db-migration-tool (SQL Server → PostgreSQL migration
pipeline): metadata model, schema converter, data converter, performance
analyzer and the data-migration loop of the orchestrator, together with
theorems settling the specification claims.

Conventions of the embedding:
* Python dicts keyed by strings are association lists `List (String × _)`
  (Python dicts have unique keys and preserve insertion order).
* Python `None`-able fields are `Option _`.
* Python truthiness tests (`if column['max_length']`, `if column['scale']`)
  are modelled by explicit helpers: `none` and `0` are falsy.
* The logger's `warning` side effect is modelled as an explicit list of
  warning messages returned next to the converted value.
-/

/- Column dictionaries, as built by `SqlServerExtractor._extract_tables`. -/
structure Column where
  name : String
  data_type : String
  max_length : Option Int
  precision : Option Nat
  scale : Option Nat
  is_nullable : Bool
  default_value : Option String
  ordinal_position : Nat
deriving DecidableEq, Repr

/- Column dictionaries returned by `SchemaConverter._convert_column`. -/
structure ConvertedColumn where
  name : String
  data_type : String
  is_nullable : Bool
  default_value : Option String
  ordinal_position : Nat
deriving DecidableEq, Repr

structure TableInfo where
  schema : String
  name : String
  columns : List Column
deriving DecidableEq, Repr

structure ViewInfo where
  schema : String
  name : String
  definition : String
deriving DecidableEq, Repr

structure IndexColumn where
  name : String
  ordinal : Nat
  descending : Bool
deriving DecidableEq, Repr

/- Index dictionaries, as built by `SqlServerExtractor._extract_indexes`. -/
structure IndexInfo where
  name : String
  table : String
  type : String
  is_unique : Bool
  is_primary_key : Bool
  columns : List IndexColumn
deriving DecidableEq, Repr

/- Converted index dictionaries (`type` and `is_primary_key` keys dropped). -/
structure ConvIndexInfo where
  name : String
  table : String
  is_unique : Bool
  columns : List IndexColumn
deriving DecidableEq, Repr

structure ConvTableInfo where
  schema : String
  name : String
  columns : List ConvertedColumn
deriving DecidableEq, Repr

/- Extractor metadata consumed by `SchemaConverter.convert`.  The constraint
dictionaries are never inspected by any code under analysis, so their value
type is a parameter `κ`.  (The extractor also emits `triggers`, `procedures`
and `functions` keys, but the converter never reads them.) -/
structure Metadata (κ : Type) where
  tables : List (String × TableInfo)
  views : List (String × ViewInfo)
  indexes : List (String × IndexInfo)
  constraints : List (String × κ)

structure ConvertedSchema (κ : Type) where
  tables : List (String × ConvTableInfo)
  views : List (String × ViewInfo)
  indexes : List (String × ConvIndexInfo)
  constraints : List (String × κ)

/- Python `str.lower()` on the ASCII identifiers this code handles:
per-character lowercasing. -/
def pyLower (s : String) : String :=
  String.mk (s.toList.map Char.toLower)

/- Python truthiness of an optional integer (`None` and `0` are falsy). -/
def optIntTruthy : Option Int → Bool
  | none => false
  | some v => v != 0

/- Python truthiness of an optional natural number. -/
def optNatTruthy : Option Nat → Bool
  | none => false
  | some v => v != 0

namespace SchemaConverter

/- `SchemaConverter._load_data_type_mapping`, verbatim. -/
def data_type_mapping : List (String × String) :=
  [("int", "INTEGER"),
   ("bigint", "BIGINT"),
   ("smallint", "SMALLINT"),
   ("tinyint", "SMALLINT"),
   ("bit", "BOOLEAN"),
   ("decimal", "DECIMAL"),
   ("numeric", "NUMERIC"),
   ("money", "DECIMAL(15,2)"),
   ("smallmoney", "DECIMAL(10,4)"),
   ("float", "DOUBLE PRECISION"),
   ("real", "REAL"),
   ("datetime", "TIMESTAMP"),
   ("datetime2", "TIMESTAMP"),
   ("smalldatetime", "TIMESTAMP"),
   ("date", "DATE"),
   ("time", "TIME"),
   ("datetimeoffset", "TIMESTAMP WITH TIME ZONE"),
   ("char", "CHAR"),
   ("varchar", "VARCHAR"),
   ("nchar", "CHAR"),
   ("nvarchar", "VARCHAR"),
   ("text", "TEXT"),
   ("ntext", "TEXT"),
   ("binary", "BYTEA"),
   ("varbinary", "BYTEA"),
   ("image", "BYTEA"),
   ("uniqueidentifier", "UUID"),
   ("xml", "XML")]

/- Dictionary lookup `self.data_type_mapping[t]` guarded by `t in ...`. -/
def lookupType (t : String) : Option String :=
  (data_type_mapping.find? (fun p => p.1 == t)).map Prod.snd

/- The character types given length suffixes (source line 93, same order). -/
def length_char_types : List String := ["varchar", "nvarchar", "char", "nchar"]

/- The numeric types given precision/scale suffixes (source line 100). -/
def precision_types : List String := ["decimal", "numeric"]

/- Python `str.strip('()')`: remove every leading and trailing character that
is `(` or `)` (a character-set strip, not a matched-pair strip). -/
def stripParenChars (s : String) : String :=
  String.mk (((s.toList.dropWhile fun c => c == '(' || c == ')').reverse.dropWhile
    fun c => c == '(' || c == ')').reverse)

/- The `conversions` dict of `_convert_default_value`, in insertion order. -/
def default_conversions : List (String × String) :=
  [("getdate()", "CURRENT_TIMESTAMP"),
   ("getutcdate()", "CURRENT_TIMESTAMP"),
   ("newid()", "gen_random_uuid()"),
   ("user_name()", "CURRENT_USER"),
   ("system_user", "CURRENT_USER")]

/- `SchemaConverter._convert_default_value`.  Returns `none` when the input
is falsy (absent or empty); otherwise strips paren characters from both ends,
then returns the first conversion whose key equals the lowercased stripped
text, else the stripped text verbatim. -/
def convert_default_value : Option String → Option String
  | none => none
  | some dv =>
    if dv == "" then none
    else
      let stripped := stripParenChars dv
      match default_conversions.find? (fun p => (pyLower stripped) == p.1) with
      | some p => some p.2
      | none => some stripped

/- `SchemaConverter._convert_column`.  The second component collects the
messages passed to `logger.warning`. -/
def convert_column (column : Column) : ConvertedColumn × List String :=
  let sql_server_type := pyLower column.data_type
  let looked := lookupType sql_server_type
  let pg_type0 := match looked with
    | some t => t
    | none => "TEXT"
  let warnings : List String := match looked with
    | some _ => []
    | none => ["Unknown data type: " ++ sql_server_type ++ ", using TEXT"]
  let pg_type1 :=
    if optIntTruthy column.max_length && decide (sql_server_type ∈ length_char_types) then
      if column.max_length == some (-1) then "TEXT"
      else pg_type0 ++ "(" ++ toString (column.max_length.getD 0) ++ ")"
    else pg_type0
  let pg_type2 :=
    if optNatTruthy column.precision && decide (sql_server_type ∈ precision_types) then
      if optNatTruthy column.scale then
        pg_type1 ++ "(" ++ toString (column.precision.getD 0) ++ ","
          ++ toString (column.scale.getD 0) ++ ")"
      else
        pg_type1 ++ "(" ++ toString (column.precision.getD 0) ++ ")"
    else pg_type1
  ({ name := column.name,
     data_type := pg_type2,
     is_nullable := column.is_nullable,
     default_value := convert_default_value column.default_value,
     ordinal_position := column.ordinal_position }, warnings)

/- `SchemaConverter._convert_tables`; warnings of all columns are collected
in order next to the converted table dict. -/
def convert_tables : List (String × TableInfo) → List (String × ConvTableInfo) × List String
  | [] => ([], [])
  | (table_key, table_info) :: rest =>
    let converted := table_info.columns.map convert_column
    let entry : ConvTableInfo :=
      { schema := table_info.schema,
        name := table_info.name,
        columns := converted.map Prod.fst }
    let ws := (converted.map Prod.snd).flatten
    let r := convert_tables rest
    ((table_key, entry) :: r.1, ws ++ r.2)

/- Case-insensitive test that `pat` is an initial segment of the text. -/
def ciStartsWith : List Char → List Char → Bool
  | [], _ => true
  | _ :: _, [] => false
  | p :: ps, c :: cs => (p.toLower == c.toLower) && ciStartsWith ps cs

/- ASCII regex `\w` character class. -/
def isWordChar (c : Char) : Bool :=
  ('a' ≤ c && c ≤ 'z') || ('A' ≤ c && c ≤ 'Z') || ('0' ≤ c && c ≤ '9') || c == '_'

/- One `re.sub` pass for the bracket-identifier rule: each leftmost,
non-overlapping occurrence of a bracket-quoted word becomes a double-quoted
word; scanning resumes after the replacement.  The fuel argument (initialised
to the input length, and at least it) bounds the recursion; every step
consumes at least one input character. -/
def subBrackets : Nat → List Char → List Char
  | 0, cs => cs
  | _ + 1, [] => []
  | fuel + 1, c :: cs =>
    if c == '[' then
      let word := cs.takeWhile isWordChar
      match word, cs.dropWhile isWordChar with
      | _ :: _, ']' :: rest => '"' :: (word ++ '"' :: subBrackets fuel rest)
      | _, _ => c :: subBrackets fuel cs
    else c :: subBrackets fuel cs

/- One `re.sub` pass for the ISNULL rule: a case-insensitive occurrence of
the ISNULL head, a first argument free of commas up to a comma, and a second
argument free of right parens up to a right paren, rewritten to COALESCE with
both captured arguments. -/
def subIsnull : Nat → List Char → List Char
  | 0, cs => cs
  | _ + 1, [] => []
  | fuel + 1, c :: cs =>
    if ciStartsWith ("ISNULL(".toList) (c :: cs) then
      let afterHead := (c :: cs).drop 7
      let a := afterHead.takeWhile (fun ch => ch != ',')
      match a, afterHead.drop a.length with
      | _ :: _, ',' :: rest2 =>
        let b := rest2.takeWhile (fun ch => ch != ')')
        (match b, rest2.drop b.length with
         | _ :: _, ')' :: rest3 =>
           ("COALESCE(".toList) ++ a ++ ',' :: (b ++ ')' :: subIsnull fuel rest3)
         | _, _ => c :: subIsnull fuel cs)
      | _, _ => c :: subIsnull fuel cs
    else c :: subIsnull fuel cs

/- One `re.sub` pass replacing every case-insensitive occurrence of the
literal `pat` with `rep`. -/
def subLiteralCI (pat rep : List Char) : Nat → List Char → List Char
  | 0, cs => cs
  | _ + 1, [] => []
  | fuel + 1, c :: cs =>
    if ciStartsWith pat (c :: cs) then
      rep ++ subLiteralCI pat rep fuel ((c :: cs).drop pat.length)
    else c :: subLiteralCI pat rep fuel cs

/- `SchemaConverter._convert_tsql_to_pgsql`: the five rewrite rules applied
in their fixed source order. -/
def convert_tsql_to_pgsql (tsql : String) : String :=
  let s1 := subBrackets tsql.toList.length tsql.toList
  let s2 := subIsnull s1.length s1
  let s3 := subLiteralCI ("LEN(".toList) ("LENGTH(".toList) s2.length s2
  let s4 := subLiteralCI ("DATEPART(".toList) ("EXTRACT(".toList) s3.length s3
  let s5 := subLiteralCI ("GETDATE()".toList) ("CURRENT_TIMESTAMP".toList) s4.length s4
  String.mk s5

/- `SchemaConverter._convert_views`. -/
def convert_views (views : List (String × ViewInfo)) : List (String × ViewInfo) :=
  views.map fun p =>
    (p.1, { schema := p.2.schema,
            name := p.2.name,
            definition := convert_tsql_to_pgsql p.2.definition })

/- `SchemaConverter._convert_indexes`: the loop skips entries whose
`is_primary_key` flag is set and copies the remaining fields. -/
def convert_indexes : List (String × IndexInfo) → List (String × ConvIndexInfo)
  | [] => []
  | (index_key, index_info) :: rest =>
    if index_info.is_primary_key then convert_indexes rest
    else
      (index_key,
        { name := index_info.name,
          table := index_info.table,
          is_unique := index_info.is_unique,
          columns := index_info.columns }) :: convert_indexes rest

/- `SchemaConverter._convert_constraints`: returns an empty dict. -/
def convert_constraints {κ : Type} (_constraints : List (String × κ)) : List (String × κ) :=
  []

/- `SchemaConverter.convert`; the second component carries the warning
messages emitted while converting columns. -/
def convert {κ : Type} (metadata : Metadata κ) : ConvertedSchema κ × List String :=
  let t := convert_tables metadata.tables
  ({ tables := t.1,
     views := convert_views metadata.views,
     indexes := convert_indexes metadata.indexes,
     constraints := convert_constraints metadata.constraints }, t.2)

end SchemaConverter

namespace DataConverter

/- pandas dtypes that occur in the conversion stage's branch analysis. -/
inductive Dtype where
  | object
  | datetime64
  | bool
  | int64
  | float64
deriving DecidableEq, Repr

/- `str(series.dtype)` for each modelled dtype. -/
def dtypeStr : Dtype → String
  | .object => "object"
  | .datetime64 => "datetime64[ns]"
  | .bool => "bool"
  | .int64 => "int64"
  | .float64 => "float64"

/- Substring test used for the `'datetime' in str(series.dtype)` check. -/
def listContainsSub (pat : List Char) : List Char → Bool
  | [] => pat.isEmpty
  | c :: cs => pat.isPrefixOf (c :: cs) || listContainsSub pat cs

/- Scalar cell values of a batch.  `null` is Python `None`. -/
inductive Value where
  | str (s : String)
  | int (n : Int)
  | float (q : Rat)
  | bool (b : Bool)
  | timestamp (t : Int)
  | null
deriving DecidableEq, Repr

/- Python `str(v)`.  A string renders as itself (the case every claim
depends on); the renderings of the non-string scalars abstract the exact
repr text, which no analysed code inspects. -/
def pyStr : Value → String
  | .str s => s
  | .int n => toString n
  | .float q => toString q
  | .bool b => if b then "True" else "False"
  | .timestamp t => "Timestamp(" ++ toString t ++ ")"
  | .null => "None"

structure Series where
  dtype : Dtype
  values : List Value
deriving DecidableEq, Repr

/- A pandas DataFrame as its ordered, named columns. -/
abbrev DataFrame := List (String × Series)

/- `DataConverter._convert_column_data`.  On an `object` series,
`astype(str)` maps every cell through `str` (result dtype stays `object`);
`pd.to_datetime` on a datetime64 series and `astype(bool)` on a bool series
are elementwise identities; any other dtype passes through unchanged. -/
def convert_column_data (series : Series) (_table_name _column_name : String) : Series :=
  if series.dtype == .object then
    { dtype := .object, values := series.values.map (fun v => .str (pyStr v)) }
  else if listContainsSub ("datetime".toList) (dtypeStr series.dtype).toList then
    { dtype := series.dtype, values := series.values }
  else if series.dtype == .bool then
    { dtype := series.dtype, values := series.values }
  else series

/- `DataConverter.convert_batch`: copy the frame and reassign every column
to its converted series. -/
def convert_batch (data_batch : DataFrame) (table_name : String) : DataFrame :=
  data_batch.map fun p => (p.1, convert_column_data p.2 table_name p.1)

/- The elementwise action of the conversion stage for a given dtype. -/
def elemConv (d : Dtype) : Value → Value :=
  if d == .object then fun v => .str (pyStr v) else id

end DataConverter

namespace PerformanceAnalyzer

/- Recommendation dictionaries.  The indexing and partitioning rules emit no
`column` key; that key is modelled as `none` there. -/
structure Recommendation where
  type : String
  table : String
  column : Option String
  severity : String
  description : String
  recommendation : String
deriving DecidableEq, Repr

/- `PerformanceAnalyzer._analyze_indexing`.  The column dictionaries built by
the extractor never carry an `is_primary_key` key, so
`col.get('is_primary_key', False)` is `False` for every column and `has_pk`
is false for every table. -/
def analyze_indexing {κ : Type} (metadata : Metadata κ) : List Recommendation :=
  metadata.tables.flatMap fun p =>
    let has_pk := p.2.columns.any fun _ => false
    if has_pk then []
    else
      [{ type := "missing_primary_key",
         table := p.1,
         column := none,
         severity := "high",
         description := "Table " ++ p.1 ++ " lacks a primary key",
         recommendation := "Add a primary key or unique identifier column" }]

/- `PerformanceAnalyzer._analyze_partitioning`: one recommendation per table
that has a date-typed column, naming the first such column. -/
def analyze_partitioning {κ : Type} (metadata : Metadata κ) : List Recommendation :=
  metadata.tables.flatMap fun p =>
    let date_columns := p.2.columns.filter fun col =>
      decide (pyLower col.data_type ∈ ["datetime", "datetime2", "date"])
    match date_columns with
    | [] => []
    | d :: _ =>
      [{ type := "partitioning_opportunity",
         table := p.1,
         column := none,
         severity := "medium",
         description := "Table " ++ p.1 ++ " has date columns suitable for partitioning",
         recommendation := "Consider partitioning by " ++ d.name }]

/- The oversized-varchar test of `_analyze_data_types`:
`column['data_type'].lower() in ['varchar', 'nvarchar'] and
column.get('max_length', 0) > 1000`.  A varchar column whose length is the
Python `None` would make the comparison raise; the extractor always supplies
an integer length for character types, and the model reads that case as a
failed test. -/
def oversizedVarchar (col : Column) : Bool :=
  decide (pyLower col.data_type ∈ ["varchar", "nvarchar"]) && (col.max_length.getD 0 > 1000)

/- `PerformanceAnalyzer._analyze_data_types`. -/
def analyze_data_types {κ : Type} (metadata : Metadata κ) : List Recommendation :=
  metadata.tables.flatMap fun p =>
    p.2.columns.filterMap fun col =>
      if oversizedVarchar col then
        some { type := "oversized_varchar",
               table := p.1,
               column := some col.name,
               severity := "low",
               description := "Column " ++ col.name ++ " has large varchar size",
               recommendation := "Consider using TEXT type or reducing size" }
      else none

/- `PerformanceAnalyzer._analyze_constraints`: returns an empty list. -/
def analyze_constraints {κ : Type} (_metadata : Metadata κ) : List Recommendation :=
  []

/- The report returned by `PerformanceAnalyzer.analyze_schema`. -/
structure RecommendationReport where
  indexing : List Recommendation
  partitioning : List Recommendation
  data_types : List Recommendation
  constraints : List Recommendation
deriving DecidableEq, Repr

/- `PerformanceAnalyzer.analyze_schema`. -/
def analyze_schema {κ : Type} (metadata : Metadata κ) : RecommendationReport :=
  { indexing := analyze_indexing metadata,
    partitioning := analyze_partitioning metadata,
    data_types := analyze_data_types metadata,
    constraints := analyze_constraints metadata }

end PerformanceAnalyzer

namespace MigrationOrchestrator

/- The calls `_migrate_data` makes against its collaborators, in order:
`extractor.extract_data(table)` once per table, then per yielded batch a
`data_converter.convert_batch` call and, when not in dry-run mode, a
`loader.load_data` call. -/
inductive Event where
  | extract (table : String)
  | convert (table : String) (batch : Nat)
  | load (table : String) (batch : Nat)
deriving DecidableEq, Repr

/- `MigrationOrchestrator._migrate_data`, as the trace of collaborator calls
it performs.  `tables` is the key list of `source_metadata['tables']`;
`extractor` maps a table name and batch size to the finite batch sequence its
generator yields. -/
def migrate_data (dry_run : Bool) (batch_size : Nat)
    (extractor : String → Nat → List DataConverter.DataFrame)
    (tables : List String) : List Event :=
  tables.flatMap fun table_name =>
    let gen := extractor table_name batch_size
    Event.extract table_name ::
      gen.enum.flatMap fun b =>
        Event.convert table_name b.1 ::
          (if dry_run then [] else [Event.load table_name b.1])

end MigrationOrchestrator

/- Concrete fixtures used to instantiate the theorems below. -/

/- A column with a source type outside the type mapping. -/
def geographyColumn : Column :=
  { name := "Shape", data_type := "geography", max_length := some 10,
    precision := none, scale := none, is_nullable := true,
    default_value := none, ordinal_position := 1 }

/- An unbounded nvarchar column (`max_length` is the -1 MAX sentinel). -/
def maxNvarcharColumn : Column :=
  { name := "Body", data_type := "nvarchar", max_length := some (-1),
    precision := none, scale := none, is_nullable := true,
    default_value := none, ordinal_position := 1 }

/- A decimal column with precision 10 and scale 0. -/
def decimalScaleZeroColumn : Column :=
  { name := "Amount", data_type := "decimal", max_length := none,
    precision := some 10, scale := some 0, is_nullable := false,
    default_value := none, ordinal_position := 1 }

/- A decimal column with precision 10 and scale 2. -/
def decimalScaleTwoColumn : Column :=
  { name := "Price", data_type := "decimal", max_length := none,
    precision := some 10, scale := some 2, is_nullable := false,
    default_value := none, ordinal_position := 1 }

def pkIndexFixture : IndexInfo :=
  { name := "PK_Customer", table := "Customer", type := "CLUSTERED",
    is_unique := true, is_primary_key := true,
    columns := [{ name := "Id", ordinal := 1, descending := false }] }

def plainIndexFixture : IndexInfo :=
  { name := "IX_Customer_Name", table := "Customer", type := "NONCLUSTERED",
    is_unique := false, is_primary_key := false,
    columns := [{ name := "Name", ordinal := 1, descending := false }] }

/- A metadata snapshot holding one primary-key index and one plain index. -/
def indexMetadataFixture : Metadata Unit :=
  { tables := [], views := [],
    indexes := [("Customer.PK_Customer", pkIndexFixture),
                ("Customer.IX_Customer_Name", plainIndexFixture)],
    constraints := [] }

/- A table whose only column is a char(2000) column. -/
def charTableFixture : TableInfo :=
  { schema := "dbo", name := "Docs",
    columns := [{ name := "BigChar", data_type := "char", max_length := some 2000,
                  precision := none, scale := none, is_nullable := true,
                  default_value := none, ordinal_position := 1 }] }

def charMetadataFixture : Metadata Unit :=
  { tables := [("dbo.Docs", charTableFixture)], views := [], indexes := [],
    constraints := [] }

/- A table whose only column is an nvarchar(2000) column. -/
def nvarcharTableFixture : TableInfo :=
  { schema := "dbo", name := "Notes",
    columns := [{ name := "BigText", data_type := "nvarchar", max_length := some 2000,
                  precision := none, scale := none, is_nullable := true,
                  default_value := none, ordinal_position := 1 }] }

def nvarcharMetadataFixture : Metadata Unit :=
  { tables := [("dbo.Notes", nvarcharTableFixture)], views := [], indexes := [],
    constraints := [] }

/- An extractor stub yielding two empty batches for every table. -/
def twoBatchExtractor : String → Nat → List DataConverter.DataFrame :=
  fun _ _ => [[], []]

/- Helper lemmas. -/

/- Every type in the char length list is in the data type mapping. -/
theorem lookup_isSome_of_char_type (t : String)
    (h : t ∈ SchemaConverter.length_char_types) :
    (SchemaConverter.lookupType t).isSome = true := by
  simp only [SchemaConverter.length_char_types, List.mem_cons,
    List.not_mem_nil, or_false] at h
  rcases h with h | h | h | h <;> subst h <;> decide

/- Every type in the precision list is in the data type mapping. -/
theorem lookup_isSome_of_precision_type (t : String)
    (h : t ∈ SchemaConverter.precision_types) :
    (SchemaConverter.lookupType t).isSome = true := by
  simp only [SchemaConverter.precision_types, List.mem_cons,
    List.not_mem_nil, or_false] at h
  rcases h with h | h <;> subst h <;> decide

/- An unmapped type name is in neither suffix-rule type list. -/
theorem unmapped_not_char_type (t : String)
    (h : SchemaConverter.lookupType t = none) :
    decide (t ∈ SchemaConverter.length_char_types) = false := by
  cases hd : decide (t ∈ SchemaConverter.length_char_types) with
  | false => rfl
  | true =>
    have hm := of_decide_eq_true hd
    have hs := lookup_isSome_of_char_type t hm
    rw [h] at hs
    simp at hs

theorem unmapped_not_precision_type (t : String)
    (h : SchemaConverter.lookupType t = none) :
    decide (t ∈ SchemaConverter.precision_types) = false := by
  cases hd : decide (t ∈ SchemaConverter.precision_types) with
  | false => rfl
  | true =>
    have hm := of_decide_eq_true hd
    have hs := lookup_isSome_of_precision_type t hm
    rw [h] at hs
    simp at hs

/-- C1: for every input column, column conversion is total by construction
(a Lean function), and a column whose lowercased source type name is not in
the fixed type mapping is converted with the generic unbounded type TEXT and
exactly one recorded warning — no exceptional outcome exists. -/
theorem claim_C1_unknown_type_fallback (c : Column)
    (h : SchemaConverter.lookupType (pyLower c.data_type) = none) :
    (SchemaConverter.convert_column c).1.data_type = "TEXT" ∧
    (SchemaConverter.convert_column c).2 =
      ["Unknown data type: " ++ pyLower c.data_type ++ ", using TEXT"] := by
  have hc := unmapped_not_char_type _ h
  have hp := unmapped_not_precision_type _ h
  simp [SchemaConverter.convert_column, h, hc, hp]

/-- Witness for C1 at the concrete unmapped type name geography. -/
theorem claim_C1_witness :
    SchemaConverter.lookupType (pyLower (Column.data_type geographyColumn)) = none ∧
    ((SchemaConverter.convert_column geographyColumn).1.data_type = "TEXT" ∧
     (SchemaConverter.convert_column geographyColumn).2 =
       ["Unknown data type: " ++ pyLower (Column.data_type geographyColumn)
         ++ ", using TEXT"]) :=
  ⟨by decide, claim_C1_unknown_type_fallback geographyColumn (by decide)⟩

/-- C2: the code's default-value translation at the claim's two example
inputs.  Python `strip('()')` removes every leading and trailing paren
character, so `(getdate())` is stripped all the way to `getdate`, which
matches no entry of the conversion table and is returned verbatim — not
CURRENT_TIMESTAMP as the claim states.  The unrecognized `(100)` does pass
through as `100`. -/
theorem claim_C2_default_value_eval :
    SchemaConverter.convert_default_value (some "(getdate())") = some "getdate" ∧
    SchemaConverter.convert_default_value (some "(100)") = some "100" := by
  constructor <;> rfl

/-- C3: a column of a bounded character type (char, nchar, varchar,
nvarchar, case-insensitively) whose max length is the -1 MAX sentinel is
converted to the unbounded type TEXT, whatever base type the source type
maps to. -/
theorem claim_C3_max_sentinel_text (c : Column)
    (h1 : pyLower c.data_type ∈ SchemaConverter.length_char_types)
    (h2 : c.max_length = some (-1)) :
    (SchemaConverter.convert_column c).1.data_type = "TEXT" := by
  simp only [SchemaConverter.length_char_types, List.mem_cons,
    List.not_mem_nil, or_false] at h1
  rcases h1 with h | h | h | h <;>
    simp [SchemaConverter.convert_column, h, h2, optIntTruthy,
      SchemaConverter.length_char_types, SchemaConverter.precision_types]

/-- Witness for C3 at a concrete nvarchar(MAX) column. -/
theorem claim_C3_witness :
    pyLower (Column.data_type maxNvarcharColumn) ∈ SchemaConverter.length_char_types ∧
    Column.max_length maxNvarcharColumn = some (-1) ∧
    (SchemaConverter.convert_column maxNvarcharColumn).1.data_type = "TEXT" :=
  ⟨by decide, rfl,
    claim_C3_max_sentinel_text maxNvarcharColumn (by decide) rfl⟩

/-- C10: the converted schema produced by the schema converter always has an
empty constraints map, for every input metadata snapshot. -/
theorem claim_C10_constraints_never_carried (κ : Type) (md : Metadata κ) :
    (SchemaConverter.convert md).1.constraints = [] := rfl

/-- C4 counterexample: a decimal column with precision 10 and scale 0 has a
present, non-null scale, yet the converted type is DECIMAL(10) — the scale
segment is dropped, because the code's truthiness test treats scale 0 like an
absent scale.  The claim as stated demands DECIMAL(10,0) here. -/
theorem claim_C4_counterexample :
    Column.scale decimalScaleZeroColumn = some 0 ∧
    Column.precision decimalScaleZeroColumn = some 10 ∧
    (SchemaConverter.convert_column decimalScaleZeroColumn).1.data_type = "DECIMAL(10)" ∧
    (SchemaConverter.convert_column decimalScaleZeroColumn).1.data_type ≠ "DECIMAL(10,0)" := by
  refine ⟨rfl, rfl, ?_, ?_⟩ <;> decide

/-- C4 (amended): for a column whose lowercased source type is decimal or
numeric with a truthy (present, nonzero) precision, the converted type is
`<mapped-type>(<precision>,<scale>)` when the scale is present and nonzero,
and `<mapped-type>(<precision>)` when the scale is absent, null or zero. -/
theorem claim_C4_precision_scale (c : Column) (p : Nat)
    (h1 : pyLower c.data_type ∈ SchemaConverter.precision_types)
    (h2 : c.precision = some p) (h3 : p ≠ 0) :
    (SchemaConverter.convert_column c).1.data_type =
      if optNatTruthy c.scale then
        (SchemaConverter.lookupType (pyLower c.data_type)).getD "TEXT"
          ++ "(" ++ toString p ++ "," ++ toString (c.scale.getD 0) ++ ")"
      else
        (SchemaConverter.lookupType (pyLower c.data_type)).getD "TEXT"
          ++ "(" ++ toString p ++ ")" := by
  simp only [SchemaConverter.precision_types, List.mem_cons,
    List.not_mem_nil, or_false] at h1
  have hp : optNatTruthy c.precision = true := by
    rw [h2]
    simp [optNatTruthy, h3]
  rcases h1 with h | h <;> rcases hs : c.scale with _ | s <;>
    simp [SchemaConverter.convert_column, h, h2, h3, hp, hs, optNatTruthy,
      SchemaConverter.length_char_types, SchemaConverter.precision_types,
      SchemaConverter.lookupType, SchemaConverter.data_type_mapping]

/-- Witness for C4 (amended) at a concrete decimal(10,2) column. -/
theorem claim_C4_witness :
    pyLower (Column.data_type decimalScaleTwoColumn) ∈ SchemaConverter.precision_types ∧
    Column.precision decimalScaleTwoColumn = some 10 ∧
    (SchemaConverter.convert_column decimalScaleTwoColumn).1.data_type =
      (if optNatTruthy (Column.scale decimalScaleTwoColumn) then
        (SchemaConverter.lookupType (pyLower (Column.data_type decimalScaleTwoColumn))).getD "TEXT"
          ++ "(" ++ toString 10 ++ ","
          ++ toString ((Column.scale decimalScaleTwoColumn).getD 0) ++ ")"
      else
        (SchemaConverter.lookupType (pyLower (Column.data_type decimalScaleTwoColumn))).getD "TEXT"
          ++ "(" ++ toString 10 ++ ")") :=
  ⟨by decide, rfl,
    claim_C4_precision_scale decimalScaleTwoColumn 10 (by decide) rfl (by decide)⟩

/- Every entry of the converted index dict originates from an input entry
with the same key whose primary-key flag is clear. -/
theorem convert_indexes_src (l : List (String × IndexInfo)) (e : String × ConvIndexInfo)
    (he : e ∈ SchemaConverter.convert_indexes l) :
    ∃ info : IndexInfo, (e.1, info) ∈ l ∧ info.is_primary_key = false := by
  induction l with
  | nil => simp [SchemaConverter.convert_indexes] at he
  | cons hd tl ih =>
    rw [SchemaConverter.convert_indexes] at he
    by_cases hpk : hd.2.is_primary_key
    · rw [if_pos hpk] at he
      obtain ⟨info, hmem, hp⟩ := ih he
      exact ⟨info, List.mem_cons_of_mem _ hmem, hp⟩
    · rw [if_neg hpk] at he
      rcases List.mem_cons.mp he with h | h
      · refine ⟨hd.2, ?_, by simpa using hpk⟩
        rw [h]
        exact List.mem_cons_self _ _
      · obtain ⟨info, hmem, hp⟩ := ih h
        exact ⟨info, List.mem_cons_of_mem _ hmem, hp⟩

/- In an association list with pairwise distinct keys, a key determines its
value. -/
theorem assoc_nodup_value_eq {α : Type} (l : List (String × α))
    (hnd : (l.map Prod.fst).Nodup) (k : String) (a b : α)
    (ha : (k, a) ∈ l) (hb : (k, b) ∈ l) : a = b := by
  induction l with
  | nil => simp at ha
  | cons hd tl ih =>
    rw [List.map_cons, List.nodup_cons] at hnd
    rcases List.mem_cons.mp ha with h1 | h1 <;> rcases List.mem_cons.mp hb with h2 | h2
    · exact congrArg Prod.snd (h1.trans h2.symm)
    · exfalso
      apply hnd.1
      rw [← h1]
      exact List.mem_map.mpr ⟨(k, b), h2, rfl⟩
    · exfalso
      apply hnd.1
      rw [← h2]
      exact List.mem_map.mpr ⟨(k, a), h1, rfl⟩
    · exact ih hnd.2 h1 h2

/-- C5: for every metadata snapshot whose index dict has distinct keys (as
every Python dict does), the key of an index whose primary-key flag is set
never appears in the converted index dict. -/
theorem claim_C5_primary_key_indexes_excluded (κ : Type) (md : Metadata κ)
    (hnd : (md.indexes.map Prod.fst).Nodup) (k : String) (info : IndexInfo)
    (hmem : (k, info) ∈ md.indexes) (hpk : info.is_primary_key = true) :
    ∀ e ∈ (SchemaConverter.convert md).1.indexes, e.1 ≠ k := by
  intro e he hk
  have hconv : (SchemaConverter.convert md).1.indexes
      = SchemaConverter.convert_indexes md.indexes := rfl
  rw [hconv] at he
  obtain ⟨info2, hmem2, hpk2⟩ := convert_indexes_src md.indexes e he
  rw [hk] at hmem2
  have heq : info = info2 := assoc_nodup_value_eq md.indexes hnd k info info2 hmem hmem2
  rw [← heq] at hpk2
  rw [hpk] at hpk2
  exact Bool.noConfusion hpk2

/-- Witness for C5: in a snapshot holding a primary-key index and a plain
index, the primary-key index's key is absent from the converted index dict. -/
theorem claim_C5_witness :
    "Customer.PK_Customer" ∉
      ((SchemaConverter.convert indexMetadataFixture).1.indexes.map Prod.fst) := by
  intro hmem
  rw [List.mem_map] at hmem
  obtain ⟨e, he, hfst⟩ := hmem
  exact claim_C5_primary_key_indexes_excluded Unit indexMetadataFixture
    (by decide) "Customer.PK_Customer" pkIndexFixture (by decide) rfl e he hfst




/- The conversion stage acts columnwise as an elementwise map that keeps the
dtype: on object series every cell goes through Python `str`, on the other
dtypes the cells are untouched. -/
theorem convert_column_data_eq (s : DataConverter.Series) (tn cn : String) :
    DataConverter.convert_column_data s tn cn =
      { dtype := s.dtype, values := s.values.map (DataConverter.elemConv s.dtype) } := by
  obtain ⟨d, vs⟩ := s
  cases d
  case object => rfl
  case datetime64 =>
    rw [show DataConverter.elemConv .datetime64 = id from rfl, List.map_id]
    rfl
  case bool =>
    rw [show DataConverter.elemConv .bool = id from rfl, List.map_id]
    rfl
  case int64 =>
    rw [show DataConverter.elemConv .int64 = id from rfl, List.map_id]
    rfl
  case float64 =>
    rw [show DataConverter.elemConv .float64 = id from rfl, List.map_id]
    rfl

/- The elementwise action is idempotent: `str` of a string is itself. -/
theorem elemConv_comp_self (d : DataConverter.Dtype) :
    DataConverter.elemConv d ∘ DataConverter.elemConv d = DataConverter.elemConv d := by
  funext v
  cases d <;> cases v <;> rfl

theorem convert_column_data_idem (s : DataConverter.Series) (tn cn : String) :
    DataConverter.convert_column_data (DataConverter.convert_column_data s tn cn) tn cn
      = DataConverter.convert_column_data s tn cn := by
  rw [convert_column_data_eq s tn cn]
  rw [convert_column_data_eq]
  simp only [List.map_map, elemConv_comp_self]

/-- C6: for every batch and table name, the converted batch has exactly the
input's column names in the input's order, every column keeps its row count
(so the batch's row count is preserved), and each output column is the
in-order elementwise image of the corresponding input column — no row is
dropped, added or reordered. -/
theorem claim_C6_batch_shape_preserved (df : DataConverter.DataFrame) (tn : String) :
    ((DataConverter.convert_batch df tn).map Prod.fst = df.map Prod.fst) ∧
    ((DataConverter.convert_batch df tn).map (fun p => p.2.values.length)
       = df.map (fun p => p.2.values.length)) ∧
    ((DataConverter.convert_batch df tn).map (fun p => p.2.values)
       = df.map (fun p => p.2.values.map (DataConverter.elemConv p.2.dtype))) := by
  unfold DataConverter.convert_batch
  refine ⟨?_, ?_, ?_⟩
  · rw [List.map_map]
    rfl
  · rw [List.map_map]
    apply List.map_congr_left
    intro p hp
    show (DataConverter.convert_column_data p.2 tn p.1).values.length = p.2.values.length
    rw [convert_column_data_eq]
    simp
  · rw [List.map_map]
    apply List.map_congr_left
    intro p hp
    show (DataConverter.convert_column_data p.2 tn p.1).values
      = p.2.values.map (DataConverter.elemConv p.2.dtype)
    rw [convert_column_data_eq]

/-- C7: the data conversion stage is idempotent — running convert_batch on
its own output (same table identity) returns that output unchanged. -/
theorem claim_C7_convert_batch_idempotent (df : DataConverter.DataFrame) (tn : String) :
    DataConverter.convert_batch (DataConverter.convert_batch df tn) tn
      = DataConverter.convert_batch df tn := by
  unfold DataConverter.convert_batch
  rw [List.map_map]
  apply List.map_congr_left
  intro p hp
  show (p.1, DataConverter.convert_column_data
      (DataConverter.convert_column_data p.2 tn p.1) tn p.1)
    = (p.1, DataConverter.convert_column_data p.2 tn p.1)
  rw [convert_column_data_idem]

/-- C8: in dry-run mode the data-migration loop performs no load_data call
at all, while it still performs an extract_data call for every table of the
metadata and a convert_batch call for every batch the extractor yields
(batches identified by their 0-based index). -/
theorem claim_C8_dry_run_no_loads (bs : Nat)
    (extractor : String → Nat → List DataConverter.DataFrame)
    (tables : List String) :
    (∀ t b, MigrationOrchestrator.Event.load t b ∉
        MigrationOrchestrator.migrate_data true bs extractor tables) ∧
    (∀ t ∈ tables, MigrationOrchestrator.Event.extract t ∈
        MigrationOrchestrator.migrate_data true bs extractor tables) ∧
    (∀ t ∈ tables, ∀ p ∈ (extractor t bs).enum,
        MigrationOrchestrator.Event.convert t p.1 ∈
          MigrationOrchestrator.migrate_data true bs extractor tables) := by
  refine ⟨?_, ?_, ?_⟩
  · intro t b hmem
    simp [MigrationOrchestrator.migrate_data, List.mem_flatMap,
      List.mem_cons] at hmem
  · intro t ht
    refine List.mem_flatMap.mpr ⟨t, ht, ?_⟩
    exact List.mem_cons_self _ _
  · intro t ht p hp
    refine List.mem_flatMap.mpr ⟨t, ht, ?_⟩
    refine List.mem_cons.mpr (Or.inr ?_)
    refine List.mem_flatMap.mpr ⟨p, hp, ?_⟩
    exact List.mem_cons_self _ _

/-- Witness for C8: one table, an extractor yielding two batches — the trace
has no load event, and has the extract event and the second convert event. -/
theorem claim_C8_witness :
    (MigrationOrchestrator.Event.load "dbo.Customer" 0 ∉
       MigrationOrchestrator.migrate_data true 10000 twoBatchExtractor ["dbo.Customer"]) ∧
    (MigrationOrchestrator.Event.extract "dbo.Customer" ∈
       MigrationOrchestrator.migrate_data true 10000 twoBatchExtractor ["dbo.Customer"]) ∧
    (MigrationOrchestrator.Event.convert "dbo.Customer" 1 ∈
       MigrationOrchestrator.migrate_data true 10000 twoBatchExtractor ["dbo.Customer"]) := by
  obtain ⟨h1, h2, h3⟩ := claim_C8_dry_run_no_loads 10000 twoBatchExtractor ["dbo.Customer"]
  exact ⟨h1 "dbo.Customer" 0, h2 "dbo.Customer" (by decide),
    h3 "dbo.Customer" (by decide) (1, []) (by decide)⟩

/-- C9 counterexample: a char(2000) column is a bounded character-type
column whose max length exceeds the 1000 threshold, yet the report built by
analyze_schema contains no data-type recommendation at all (and no
low-severity recommendation anywhere): the code only tests varchar and
nvarchar, so char and nchar columns are never flagged. -/
theorem claim_C9_counterexample :
    (charTableFixture.columns.map (fun c => (c.data_type, c.max_length))
       = [("char", some 2000)]) ∧
    ((PerformanceAnalyzer.analyze_schema charMetadataFixture).data_types = []) ∧
    (((PerformanceAnalyzer.analyze_schema charMetadataFixture).indexing
        ++ (PerformanceAnalyzer.analyze_schema charMetadataFixture).partitioning
        ++ (PerformanceAnalyzer.analyze_schema charMetadataFixture).constraints).all
      (fun r => r.severity != "low") = true) := by
  refine ⟨rfl, rfl, rfl⟩

/-- C9 (amended): every varchar or nvarchar column (case-insensitively)
whose max length exceeds the fixed 1000 threshold yields a low-severity
oversized-varchar recommendation, with the advice to switch to TEXT or
shrink the column, in the data-type section of the analyze_schema report. -/
theorem claim_C9_oversized_varchar (κ : Type) (md : Metadata κ)
    (tk : String) (ti : TableInfo) (c : Column)
    (hmem : (tk, ti) ∈ md.tables) (hc : c ∈ ti.columns)
    (htype : pyLower c.data_type ∈ ["varchar", "nvarchar"])
    (v : Int) (hlen : c.max_length = some v) (hv : v > 1000) :
    ∃ r ∈ (PerformanceAnalyzer.analyze_schema md).data_types,
      r.type = "oversized_varchar" ∧ r.table = tk ∧ r.column = some c.name ∧
      r.severity = "low" ∧
      r.recommendation = "Consider using TEXT type or reducing size" := by
  have hcond : PerformanceAnalyzer.oversizedVarchar c = true := by
    simp [PerformanceAnalyzer.oversizedVarchar, htype, hlen, hv]
  refine ⟨{ type := "oversized_varchar", table := tk, column := some c.name,
            severity := "low",
            description := "Column " ++ c.name ++ " has large varchar size",
            recommendation := "Consider using TEXT type or reducing size" },
    ?_, rfl, rfl, rfl, rfl, rfl⟩
  show _ ∈ PerformanceAnalyzer.analyze_data_types md
  refine List.mem_flatMap.mpr ⟨(tk, ti), hmem, ?_⟩
  refine List.mem_filterMap.mpr ⟨c, hc, ?_⟩
  simp [hcond]

/-- Witness for C9 (amended) at a concrete nvarchar(2000) column. -/
theorem claim_C9_witness :
    ∃ r ∈ (PerformanceAnalyzer.analyze_schema nvarcharMetadataFixture).data_types,
      r.type = "oversized_varchar" ∧ r.table = "dbo.Notes" ∧
      r.column = some "BigText" ∧ r.severity = "low" ∧
      r.recommendation = "Consider using TEXT type or reducing size" :=
  claim_C9_oversized_varchar Unit nvarcharMetadataFixture "dbo.Notes" nvarcharTableFixture
    { name := "BigText", data_type := "nvarchar", max_length := some 2000,
      precision := none, scale := none, is_nullable := true, default_value := none,
      ordinal_position := 1 }
    (by decide) (by decide) (by decide) 2000 rfl (by decide)
